import Mathlib

/-!
Shallow embedding of the progress-tracking and chart-reconciliation core of
the Opportunity_Detetion_AI_platform frontend.

Chart reconciliation is embedded from the `setDynamicCharts` updater inside
`handleSendMessage` (ReportComponent.tsx, lines 742-803).  Progress tracking
is embedded from `ProgressTracker` (progressTracker.ts) and from
`generateReportStreamWithProgress` (the coordinator wiring the tracker, the
fallback simulation and the 5-second auto-fallback timeout together).
JavaScript numbers are modelled as rationals, `Math.round` as
floor (x + 1/2), timers and network responses as explicit events fed to a
step function, and `Math.random()` samples as event parameters.
-/

/-- JS `s.toLowerCase()`, written structurally on the character list so that
it reduces in the kernel. -/
def jsToLower (s : String) : String :=
  String.mk (s.data.map Char.toLower)

/-- One step of `String.replace(/\s+/g, '-')` over a character list: a maximal
run of whitespace becomes a single `'-'`.  The flag records whether the
previous character was part of a whitespace run already replaced. -/
def collapseWsAux : Bool → List Char → List Char
  | _, [] => []
  | prevWs, c :: cs =>
    if c.isWhitespace then
      if prevWs then collapseWsAux true cs
      else '-' :: collapseWsAux true cs
    else c :: collapseWsAux false cs

/-- JS `s.replace(/\s+/g, '-')`. -/
def jsCollapseWs (s : String) : String :=
  String.mk (collapseWsAux false s.data)

/-- The derived chart id: `` `${title}-${type}`.toLowerCase().replace(/\s+/g, '-') ``
(ReportComponent.tsx line 752 and line 755). -/
def chartKey (title ty : String) : String :=
  jsCollapseWs (jsToLower (title ++ "-" ++ ty))

/-- `ChartDataFromBackend` (ReportComponent.tsx lines 35-47); the fields the
merge logic reads or writes. `type` is kept as a string of the enumeration. -/
structure ChartDataFromBackend where
  title : String
  type : String
  labels : List String
  data : List ℚ
  description : Option String := none
  insights : List String := []
  id : Option String := none
  createdAt : Option Nat := none
  updatedAt : Option Nat := none
deriving DecidableEq, Repr

/-- JS `Array.prototype.findIndex`: index of the first element satisfying the
predicate, `none` when there is none (JS returns -1). -/
def jsFindIndex (p : α → Bool) : List α → Option Nat
  | [] => none
  | a :: as => if p a then some 0 else (jsFindIndex p as).map (· + 1)

/-- The body of the `findIndex` callback (ReportComponent.tsx lines 754-780):
match by generated id first, then by case-insensitive title, then by same
type with identical labels or equal data length.  All three rules are tested
against one existing chart before the next existing chart is considered. -/
def chartMatches (newChart chart : ChartDataFromBackend) : Bool :=
  let chartId := chartKey newChart.title newChart.type
  let existingId := chartKey chart.title chart.type
  if existingId == chartId then true
  else if jsToLower chart.title == jsToLower newChart.title then true
  else if chart.type == newChart.type then
    (chart.labels == newChart.labels) || (chart.data.length == newChart.data.length)
  else false

/-- Result of the merge loop: the chart list plus the two counters
`chartsUpdated` and `chartsAdded` (ReportComponent.tsx lines 743-744). -/
structure MergeResult where
  charts : List ChartDataFromBackend
  chartsUpdated : Nat
  chartsAdded : Nat
deriving DecidableEq, Repr

/-- One iteration of `response.charts.forEach` (ReportComponent.tsx lines
750-800): find the first existing chart matching the candidate; replace it in
place (spread candidate, set `id`, refresh `updatedAt`) or append the
candidate (set `id`, set `createdAt`).  `now` stands for `Date.now()`. -/
def mergeOne (now : Nat) (st : MergeResult) (newChart : ChartDataFromBackend) : MergeResult :=
  let chartId := chartKey newChart.title newChart.type
  match jsFindIndex (fun chart => chartMatches newChart chart) st.charts with
  | some i =>
    { st with
      charts := st.charts.set i { newChart with id := some chartId, updatedAt := some now }
      chartsUpdated := st.chartsUpdated + 1 }
  | none =>
    { st with
      charts := st.charts ++ [{ newChart with id := some chartId, createdAt := some now }]
      chartsAdded := st.chartsAdded + 1 }

/-- The whole `forEach` loop over the candidate batch, started from the
previous chart collection and zeroed counters. -/
def mergeCharts (now : Nat) (existing newCharts : List ChartDataFromBackend) : MergeResult :=
  newCharts.foldl (mergeOne now) ⟨existing, 0, 0⟩

/-- JS `Math.round` on a rational: floor (x + 1/2). -/
def jsRound (q : ℚ) : ℤ :=
  Rat.floor (q + 1/2)

/-- JS `x || d` for an optional string value: `undefined` and the empty
string are falsy. -/
def jsOrStr (x : Option String) (d : String) : String :=
  match x with
  | some s => if s == "" then d else s
  | none => d

/-- `ProgressPhase` entries of `ANALYSIS_PHASES` (progressTracker.ts lines
14-27). -/
structure ProgressPhase where
  name : String
  description : String
  estimatedDuration : Nat
deriving DecidableEq, Repr

def ANALYSIS_PHASES : List ProgressPhase :=
  [⟨"Initialization", "Setting up analysis environment", 5⟩,
   ⟨"Data Collection", "Gathering business information", 15⟩,
   ⟨"Market Research", "Analyzing market trends and competitors", 30⟩,
   ⟨"Opportunity Analysis", "Identifying growth opportunities", 25⟩,
   ⟨"Report Generation", "Creating comprehensive report", 20⟩,
   ⟨"Finalization", "Preparing final analysis", 5⟩]

/-- The `data.progress` object of the remote progress endpoint's payload;
every field may be absent. -/
structure ProgressPayload where
  current_phase : Option String := none
  percentage : Option ℚ := none
  current_task : Option String := none
  estimated_time_remaining : Option Nat := none
  elapsed_time : Option Nat := none
deriving DecidableEq, Repr

/-- The JSON body of a successful HTTP response: `data.status` and the
(possibly absent) `data.progress` object. -/
structure PollPayload where
  status : String
  progress : Option ProgressPayload
deriving DecidableEq, Repr

/-- Outcome of one poll request: an HTTP success carrying a parsed body, or a
thrown network/parse error (the `catch` branch of `fetchProgress`). -/
inductive PollResponse
  | ok (payload : PollPayload)
  | err
deriving DecidableEq, Repr

/-- `ProgressUpdate` (progressTracker.ts lines 3-12). -/
structure ProgressUpdate where
  sessionId : String
  phase : String
  percentage : ℤ
  currentTask : String
  estimatedTimeRemaining : Nat
  elapsedTime : Nat
  totalPhases : Nat
  currentPhase : Nat
deriving DecidableEq, Repr

/-- A callback invocation made by the tracker: `progressCallback` or
`errorCallback`. -/
inductive TrackerEmit
  | update (u : ProgressUpdate)
  | error
deriving DecidableEq, Repr

/-- `getCurrentPhaseIndex` (progressTracker.ts lines 97-102): 1-based index
of the phase whose lowercased name equals the payload's phase name, else 1.
An absent name compares unequal to every phase name in JS. -/
def getCurrentPhaseIndex (phaseName : Option String) : Nat :=
  match phaseName with
  | none => 1
  | some s =>
    match jsFindIndex (fun phase => jsToLower phase.name == jsToLower s) ANALYSIS_PHASES with
    | some i => i + 1
    | none => 1

/-- The part of `fetchProgress` (progressTracker.ts lines 68-94) that runs
once the awaited response is available: the emitted callbacks and whether
`stopTracking()` is invoked (percentage ≥ 100).  A body whose `status` is
not `"success"` or whose `progress` object is absent produces no callback at
all; only a thrown request error reaches `errorCallback`. -/
def respondResult (sessionId : String) (r : PollResponse) : List TrackerEmit × Bool :=
  match r with
  | .err => ([.error], false)
  | .ok payload =>
    if payload.status == "success" then
      match payload.progress with
      | some prog =>
        let u : ProgressUpdate :=
          { sessionId := sessionId
            phase := jsOrStr prog.current_phase "Unknown"
            percentage := jsRound (prog.percentage.getD 0)
            currentTask := jsOrStr prog.current_task "Processing..."
            estimatedTimeRemaining := prog.estimated_time_remaining.getD 0
            elapsedTime := prog.elapsed_time.getD 0
            totalPhases := ANALYSIS_PHASES.length
            currentPhase := getCurrentPhaseIndex prog.current_phase }
        ([.update u], decide (100 ≤ u.percentage))
      | none => ([], false)
    else ([], false)

/-- Mutable state of a `ProgressTracker` instance: `isTracking`, whether the
2-second interval is scheduled (`intervalId` set), and how many poll requests
have passed the `isTracking` entry check of `fetchProgress` and are awaiting
their response. -/
structure TrackerState where
  sessionId : String
  isTracking : Bool
  timer : Bool
  inFlight : Nat
deriving DecidableEq, Repr

/-- Events affecting one tracker: `startTracking`, `stopTracking`, a firing
of the 2-second interval, and the arrival of one outstanding response. -/
inductive TrackerEvent
  | start
  | stop
  | tick
  | respond (r : PollResponse)
deriving DecidableEq, Repr

/-- One event step of the tracker.  `startTracking` sets the flag, schedules
the interval and issues the initial fetch; `stopTracking` clears flag and
interval but cannot recall a request already in flight; an interval tick runs
the `isTracking` entry check before issuing a request; a response is handled
by `respondResult` with no further `isTracking` check (the code checks the
flag only before the `await`, never before the emission). -/
def trackerStep (s : TrackerState) : TrackerEvent → TrackerState × List TrackerEmit
  | .start =>
    ({ s with isTracking := true, timer := true, inFlight := s.inFlight + 1 }, [])
  | .stop =>
    ({ s with isTracking := false, timer := false }, [])
  | .tick =>
    if s.timer then
      if s.isTracking then ({ s with inFlight := s.inFlight + 1 }, []) else (s, [])
    else (s, [])
  | .respond r =>
    if s.inFlight = 0 then (s, [])
    else
      let (out, stops) := respondResult s.sessionId r
      ({ s with
          inFlight := s.inFlight - 1
          isTracking := if stops then false else s.isTracking
          timer := if stops then false else s.timer }, out)

/-- Run the tracker over a list of events, concatenating all emissions. -/
def trackerRun (s : TrackerState) : List TrackerEvent → TrackerState × List TrackerEmit
  | [] => (s, [])
  | e :: es =>
    let (s', out) := trackerStep s e
    let (s'', outs) := trackerRun s' es
    (s'', out ++ outs)

/-- State of one invocation of the fallback simulation
(`startFallbackProgress`, part of `generateReportStreamWithProgress`): its
interval, its closed-over `currentProgress` and `phaseIndex`. -/
structure FallbackRun where
  active : Bool
  currentProgress : ℚ
  phaseIndex : Nat
deriving DecidableEq, Repr

/-- State of one `generateReportStreamWithProgress` call after its
synchronous body ran: the tracker it constructed, every fallback run created
so far (in creation order; the shared `fallbackInterval` variable always
names the interval of the most recent one), and whether the 5-second
`setTimeout` is still pending. -/
structure CoordState where
  tracker : TrackerState
  runs : List FallbackRun
  timeoutPending : Bool
deriving DecidableEq, Repr

/-- Entering `startFallbackProgress`: a fresh interval with
`currentProgress = 0`, `phaseIndex = 0` is created, and the shared
`fallbackInterval` variable is repointed at it.  No existing timer — neither
the tracker's interval nor an earlier fallback interval — is cleared. -/
def startFallbackProgress (runs : List FallbackRun) : List FallbackRun :=
  runs ++ [⟨true, 0, 0⟩]

/-- `clearInterval(fallbackInterval)`: clears the interval the shared
variable currently names, i.e. that of the most recently created run. -/
def clearFallbackHandle : List FallbackRun → List FallbackRun
  | [] => []
  | [r] => [{ r with active := false }]
  | r :: rs => r :: clearFallbackHandle rs

/-- Progress events delivered to the caller of
`generateReportStreamWithProgress`: `onProgress` (carrying the `progress`
percentage field of the event) and `onComplete`. -/
inductive CoordOut
  | progress (pct : ℤ)
  | complete
deriving DecidableEq, Repr

/-- Events driving one coordinator session: the tracker's interval fires, an
outstanding poll response arrives, the 5-second auto-fallback `setTimeout`
fires, or fallback run `i`'s interval fires with `Math.random()` sample
`rand`. -/
inductive CoordEvent
  | trackerTick
  | respond (r : PollResponse)
  | timeout5s
  | fallbackTick (i : Nat) (rand : ℚ)
deriving DecidableEq, Repr

/-- The callbacks `generateReportStreamWithProgress` hands to
`startTracking` (lines 117-160): a `ProgressUpdate` is forwarded to
`onProgress` with its percentage unchanged, followed by `onComplete`
whenever `percentage >= 100`; a tracker error calls
`startFallbackProgress()` (and does not reach the caller). -/
def handleTrackerEmit (st : CoordState × List CoordOut) (e : TrackerEmit) :
    CoordState × List CoordOut :=
  match e with
  | .update u =>
    (st.1, st.2 ++ (.progress u.percentage ::
      if 100 ≤ u.percentage then [.complete] else []))
  | .error =>
    ({ st.1 with runs := startFallbackProgress st.1.runs }, st.2)

/-- One event step of the coordinator.  The 5-second timeout's guard
`!progressTracker || progressTracker` is a tautology, so the timeout always
starts a fallback run.  A fallback tick (lines 167-215) reads the phase for
the pre-tick `phaseIndex` (clearing the shared handle and returning when it
is past the last phase), advances `currentProgress` by `rand * 3 + 1`, emits
`min(round(currentProgress), 100)`, advances `phaseIndex` across its
cumulative threshold, and on `phaseIndex >= length || currentProgress >=
100` clears the shared handle and invokes `onComplete`. -/
def coordStep (s : CoordState) : CoordEvent → CoordState × List CoordOut
  | .trackerTick =>
    let (tr, emits) := trackerStep s.tracker .tick
    emits.foldl handleTrackerEmit ({ s with tracker := tr }, [])
  | .respond r =>
    let (tr, emits) := trackerStep s.tracker (.respond r)
    emits.foldl handleTrackerEmit ({ s with tracker := tr }, [])
  | .timeout5s =>
    if s.timeoutPending then
      ({ s with timeoutPending := false, runs := startFallbackProgress s.runs }, [])
    else (s, [])
  | .fallbackTick i rand =>
    match s.runs[i]? with
    | none => (s, [])
    | some run =>
      if run.active then
        match ANALYSIS_PHASES[run.phaseIndex]? with
        | none => ({ s with runs := clearFallbackHandle s.runs }, [])
        | some _ =>
          let currentProgress := run.currentProgress + (rand * 3 + 1)
          let emitted := min (jsRound currentProgress) 100
          let phaseIndex :=
            if ((run.phaseIndex : ℚ) + 1) * (100 / (ANALYSIS_PHASES.length : ℚ)) ≤ currentProgress
            then run.phaseIndex + 1 else run.phaseIndex
          let runs1 := s.runs.set i
            { run with currentProgress := currentProgress, phaseIndex := phaseIndex }
          if ANALYSIS_PHASES.length ≤ phaseIndex ∨ (100 : ℚ) ≤ currentProgress then
            ({ s with runs := clearFallbackHandle runs1 }, [.progress emitted, .complete])
          else
            ({ s with runs := runs1 }, [.progress emitted])
      else (s, [])

/-- State established by the synchronous body of
`generateReportStreamWithProgress`: the tracker is started (flag set,
interval scheduled, the initial fetch in flight), no fallback run exists,
and the 5-second auto-fallback timeout is pending. -/
def coordInit : CoordState :=
  { tracker := { sessionId := "session_1", isTracking := true, timer := true, inFlight := 1 }
    runs := []
    timeoutPending := true }

/-- Run the coordinator over a list of events, concatenating all outputs. -/
def coordRun (s : CoordState) : List CoordEvent → CoordState × List CoordOut
  | [] => (s, [])
  | e :: es =>
    let (s', out) := coordStep s e
    let (s'', outs) := coordRun s' es
    (s'', out ++ outs)

/-- Everything the caller observes on `onProgress`/`onComplete` for a
session: the synthetic "connected" event (progress 0, emitted by the
synchronous body before any data arrives) followed by the outputs of the
event trace. -/
def coordOutputs (events : List CoordEvent) : List CoordOut :=
  CoordOut.progress 0 :: (coordRun coordInit events).2

/-- Percentages delivered to `onProgress`, in order. -/
def progressValues (outs : List CoordOut) : List ℤ :=
  outs.filterMap (fun o => match o with | .progress p => some p | .complete => none)

/-- Number of `onComplete` invocations. -/
def completeCount (outs : List CoordOut) : Nat :=
  (outs.filter (fun o => match o with | .complete => true | .progress _ => false)).length

/-- Whether a percentage sequence never decreases. -/
def nonDecreasingInt : List ℤ → Bool
  | [] => true
  | [_] => true
  | a :: b :: rest => decide (a ≤ b) && nonDecreasingInt (b :: rest)

/-- Number of timers currently scheduled for the session: the tracker's
interval plus every live fallback interval. -/
def activeTimerCount (s : CoordState) : Nat :=
  (if s.tracker.timer then 1 else 0) + (s.runs.filter (fun r => r.active)).length

/-- A successful poll body carrying just a percentage. -/
def successPayload (q : ℚ) : PollPayload :=
  { status := "success", progress := some { percentage := some q } }

/-- Two existing charts: the first shares the candidate's type and labels
(structural-similarity rule), the second has exactly the candidate's derived
id (`beta-bar`). -/
def c5Existing : List ChartDataFromBackend :=
  [{ title := "Alpha", type := "bar", labels := ["L"], data := [1] },
   { title := "Beta", type := "bar", labels := ["M", "N"], data := [7, 8] }]

/-- A candidate whose derived id equals that of the second existing chart. -/
def c5Candidate : ChartDataFromBackend :=
  { title := "Beta", type := "bar", labels := ["L"], data := [2] }

/-- The existing collection of the spec's Revenue-by-Quarter example. -/
def c6Existing : List ChartDataFromBackend :=
  [{ title := "Revenue by Quarter", type := "bar", labels := ["Q1", "Q2"], data := [10, 20] }]

/-- The candidate of the spec's Revenue-by-Quarter example. -/
def c6Candidate : ChartDataFromBackend :=
  { title := "Revenue by Quarter", type := "bar", labels := ["Q1", "Q2"], data := [15, 25] }

/-- The existing collection of the spec's Growth example. -/
def c7Existing : List ChartDataFromBackend :=
  [{ title := "Growth", type := "line", labels := ["A", "B", "C"], data := [1, 2, 3] }]

/-- The candidate of the spec's Growth example: same labels, different type
and title. -/
def c7Candidate : ChartDataFromBackend :=
  { title := "Growth Rate", type := "bar", labels := ["A", "B", "C"], data := [4, 5, 6] }

/-- A session in which the backend delivers an authoritative update
(percentage 10) before the 5-second auto-fallback timeout fires, with no
poll error anywhere. -/
def c1Trace : List CoordEvent :=
  [.respond (.ok (successPayload 10)), .timeout5s]

/-- A session in which the backend delivers an authoritative update
(percentage 25) before the 5-second auto-fallback timeout fires, with no
poll error anywhere. -/
def c4Trace : List CoordEvent :=
  [.respond (.ok (successPayload 25)), .timeout5s]

/-- An authoritative update at 50, then the auto-fallback timeout, then one
tick of the freshly started simulation (random sample 1/2). -/
def c2Trace : List CoordEvent :=
  [.respond (.ok (successPayload 50)), .timeout5s, .fallbackTick 0 (1/2)]

/-- The backend reports completion (percentage 100); the auto-fallback
timeout still fires afterwards and the simulation runs to its own
completion (26 ticks with random sample 99/100, i.e. +3.97 per tick). -/
def c3Trace : List CoordEvent :=
  .respond (.ok (successPayload 100)) :: .timeout5s ::
    List.replicate 26 (.fallbackTick 0 (99/100))

/-- A coordinator state holding one fallback run that has already completed:
its `phaseIndex` is past the last phase. -/
def c3State : CoordState :=
  { tracker := coordInit.tracker
    runs := [{ active := true, currentProgress := 101, phaseIndex := 6 }]
    timeoutPending := false }

/-- A fresh tracker that has not been started. -/
def freshTracker : TrackerState :=
  { sessionId := "s", isTracking := false, timer := false, inFlight := 0 }

/-- `startTracking` immediately followed by `stopTracking`, before any timer
fires; then the response to the initial fetch (issued synchronously inside
`startTracking`) arrives. -/
def c9Trace : List TrackerEvent :=
  [.start, .stop, .respond (.ok (successPayload 42))]

/-- A tracker on which `stopTracking` has taken effect and no poll request
is outstanding. -/
def stoppedQuiescent (s : TrackerState) : Prop :=
  s.isTracking = false ∧ s.timer = false ∧ s.inFlight = 0

theorem jsFindIndex_eq_none (p : α → Bool) :
    ∀ l : List α, (∀ a ∈ l, p a = false) → jsFindIndex p l = none
  | [], _ => rfl
  | a :: as, h => by
    have ha : p a = false := h a (List.mem_cons_self a as)
    have has : jsFindIndex p as = none :=
      jsFindIndex_eq_none p as (fun b hb => h b (List.mem_cons_of_mem a hb))
    simp [jsFindIndex, ha, has]

theorem jsFindIndex_eq_some (p : α → Bool) :
    ∀ (l : List α) (i : Nat) (h : i < l.length),
      p (l.get ⟨i, h⟩) = true →
      (∀ j (hj : j < i), p (l.get ⟨j, Nat.lt_trans hj h⟩) = false) →
      jsFindIndex p l = some i
  | [], i, h => by simp at h
  | a :: as, 0, _ => fun hp _ => by
    simp only [List.get] at hp
    simp [jsFindIndex, hp]
  | a :: as, i + 1, h => fun hp hlow => by
    have ha : p a = false := hlow 0 (Nat.succ_pos i)
    have has : jsFindIndex p as = some i :=
      jsFindIndex_eq_some p as i (Nat.lt_of_succ_lt_succ h) hp
        (fun j hj => hlow (j + 1) (Nat.succ_lt_succ hj))
    simp [jsFindIndex, ha, has]

theorem mergeOne_cases (now : Nat) (st : MergeResult) (c : ChartDataFromBackend) :
    ((mergeOne now st c).charts.length = st.charts.length ∧
     (mergeOne now st c).chartsUpdated = st.chartsUpdated + 1 ∧
     (mergeOne now st c).chartsAdded = st.chartsAdded) ∨
    ((mergeOne now st c).charts.length = st.charts.length + 1 ∧
     (mergeOne now st c).chartsUpdated = st.chartsUpdated ∧
     (mergeOne now st c).chartsAdded = st.chartsAdded + 1) := by
  unfold mergeOne
  cases h : jsFindIndex (fun chart => chartMatches c chart) st.charts with
  | some i => left; simp [h, List.length_set]
  | none => right; simp [h]

theorem mergeFold_counts (now : Nat) :
    ∀ (cands : List ChartDataFromBackend) (st : MergeResult),
      (cands.foldl (mergeOne now) st).chartsUpdated + (cands.foldl (mergeOne now) st).chartsAdded
        = st.chartsUpdated + st.chartsAdded + cands.length ∧
      (cands.foldl (mergeOne now) st).charts.length + st.chartsAdded
        = st.charts.length + (cands.foldl (mergeOne now) st).chartsAdded
  | [], st => by simp
  | c :: cs, st => by
    have ih := mergeFold_counts now cs (mergeOne now st c)
    have hc := mergeOne_cases now st c
    simp only [List.foldl_cons, List.length_cons]
    rcases hc with ⟨h1, h2, h3⟩ | ⟨h1, h2, h3⟩ <;>
      exact ⟨by omega, by omega⟩

/-- Claim C10: in every merge each candidate increments exactly one of the
two counters, so `chartsUpdated + chartsAdded` equals the number of
candidates, and the resulting collection's length is the existing
collection's length plus `chartsAdded`. -/
theorem merge_counts_partition (now : Nat) (existing newCharts : List ChartDataFromBackend) :
    (mergeCharts now existing newCharts).chartsUpdated
        + (mergeCharts now existing newCharts).chartsAdded = newCharts.length ∧
    (mergeCharts now existing newCharts).charts.length
        = existing.length + (mergeCharts now existing newCharts).chartsAdded := by
  have h := mergeFold_counts now newCharts ⟨existing, 0, 0⟩
  simp only [mergeCharts] at *
  obtain ⟨h1, h2⟩ := h
  constructor <;> omega

/-- Claim C6: a candidate with the same title and type as the existing
artifact at position `i` (no earlier artifact matching) replaces it in
place: same collection length, position `i` now holds the candidate's data
with its `id` set and `updatedAt` refreshed to `now`, counters are
`chartsUpdated = 1` and `chartsAdded = 0`, and every other position is
unchanged. -/
theorem merge_same_title_type_updates_in_place
    (now : Nat) (existing : List ChartDataFromBackend) (c : ChartDataFromBackend)
    (i : Nat) (hi : i < existing.length)
    (htitle : (existing.get ⟨i, hi⟩).title = c.title)
    (htype : (existing.get ⟨i, hi⟩).type = c.type)
    (hbefore : ∀ j (hj : j < i), chartMatches c (existing.get ⟨j, Nat.lt_trans hj hi⟩) = false) :
    (mergeCharts now existing [c]).charts
        = existing.set i { c with id := some (chartKey c.title c.type), updatedAt := some now } ∧
    (mergeCharts now existing [c]).charts.length = existing.length ∧
    (mergeCharts now existing [c]).chartsUpdated = 1 ∧
    (mergeCharts now existing [c]).chartsAdded = 0 ∧
    ∀ j, j ≠ i → (mergeCharts now existing [c]).charts[j]? = existing[j]? := by
  have htitle' : existing[i].title = c.title := by
    simpa [List.get_eq_getElem] using htitle
  have htype' : existing[i].type = c.type := by
    simpa [List.get_eq_getElem] using htype
  have hmatch : chartMatches c (existing.get ⟨i, hi⟩) = true := by
    simp [chartMatches, htitle', htype']
  have hfind : jsFindIndex (fun chart => chartMatches c chart) existing = some i :=
    jsFindIndex_eq_some _ existing i hi hmatch hbefore
  have hcharts : (mergeCharts now existing [c]).charts
      = existing.set i { c with id := some (chartKey c.title c.type), updatedAt := some now } := by
    simp [mergeCharts, mergeOne, hfind]
  refine ⟨hcharts, ?_, ?_, ?_, ?_⟩
  · rw [hcharts, List.length_set]
  · simp [mergeCharts, mergeOne, hfind]
  · simp [mergeCharts, mergeOne, hfind]
  · intro j hj
    rw [hcharts, List.getElem?_set_ne (fun h => hj h.symm)]

/-- Witness for C6 at the spec's Revenue-by-Quarter example. -/
theorem merge_same_title_type_updates_in_place_witness :
    (mergeCharts 7 c6Existing [c6Candidate]).charts
        = c6Existing.set 0 { c6Candidate with
            id := some (chartKey c6Candidate.title c6Candidate.type), updatedAt := some 7 } ∧
    (mergeCharts 7 c6Existing [c6Candidate]).charts.length = c6Existing.length ∧
    (mergeCharts 7 c6Existing [c6Candidate]).chartsUpdated = 1 ∧
    (mergeCharts 7 c6Existing [c6Candidate]).chartsAdded = 0 ∧
    ∀ j, j ≠ 0 → (mergeCharts 7 c6Existing [c6Candidate]).charts[j]? = c6Existing[j]? :=
  merge_same_title_type_updates_in_place 7 c6Existing c6Candidate 0 (by decide)
    (by decide) (by decide) (fun j hj => absurd hj (Nat.not_lt_zero j))

/-- Claim C7: a candidate whose type differs from every existing artifact's
type is never matched by the structural-similarity rule even when labels
coincide; when additionally its lowercased title and derived id differ from
every existing one, no rule matches at all and the candidate is appended,
growing the collection by one. -/
theorem merge_type_mismatch_appends
    (now : Nat) (existing : List ChartDataFromBackend) (c : ChartDataFromBackend)
    (h : ∀ e ∈ existing, e.type ≠ c.type ∧ jsToLower e.title ≠ jsToLower c.title ∧
          chartKey e.title e.type ≠ chartKey c.title c.type) :
    (∀ e ∈ existing, chartMatches c e = false) ∧
    (mergeCharts now existing [c]).charts
        = existing ++ [{ c with id := some (chartKey c.title c.type), createdAt := some now }] ∧
    (mergeCharts now existing [c]).charts.length = existing.length + 1 ∧
    (mergeCharts now existing [c]).chartsUpdated = 0 ∧
    (mergeCharts now existing [c]).chartsAdded = 1 := by
  have hnomatch : ∀ e ∈ existing, chartMatches c e = false := by
    intro e he
    obtain ⟨h1, h2, h3⟩ := h e he
    simp [chartMatches, h1, h2, h3]
  have hfind : jsFindIndex (fun chart => chartMatches c chart) existing = none :=
    jsFindIndex_eq_none _ existing hnomatch
  refine ⟨hnomatch, ?_, ?_, ?_, ?_⟩ <;> simp [mergeCharts, mergeOne, hfind]

/-- Witness for C7 at the spec's Growth example: different `type`, labels
identical, title and id fresh — appended, length becomes 2. -/
theorem merge_type_mismatch_appends_witness :
    (∀ e ∈ c7Existing, chartMatches c7Candidate e = false) ∧
    (mergeCharts 7 c7Existing [c7Candidate]).charts
        = c7Existing ++ [{ c7Candidate with
            id := some (chartKey c7Candidate.title c7Candidate.type), createdAt := some 7 }] ∧
    (mergeCharts 7 c7Existing [c7Candidate]).charts.length = c7Existing.length + 1 ∧
    (mergeCharts 7 c7Existing [c7Candidate]).chartsUpdated = 0 ∧
    (mergeCharts 7 c7Existing [c7Candidate]).chartsAdded = 1 :=
  merge_type_mismatch_appends 7 c7Existing c7Candidate (by decide)

/-- Claim C5 (counterexample): the candidate's derived id equals that of the
second existing artifact, yet the candidate replaces the first artifact,
which it matches only by the structural-similarity rule; the id-matching
artifact is left untouched.  Rule 1 therefore does not take precedence over
a rule-3 match of an earlier artifact. -/
theorem id_match_loses_to_earlier_structural_match :
    chartKey c5Candidate.title c5Candidate.type = chartKey "Beta" "bar" ∧
    chartKey "Alpha" "bar" ≠ chartKey c5Candidate.title c5Candidate.type ∧
    (mergeCharts 3 c5Existing [c5Candidate]).charts
        = [{ c5Candidate with id := some "beta-bar", updatedAt := some 3 },
           { title := "Beta", type := "bar", labels := ["M", "N"], data := [7, 8] }] ∧
    (mergeCharts 3 c5Existing [c5Candidate]).charts[1]?
        = some { title := "Beta", type := "bar", labels := ["M", "N"], data := [7, 8] } := by
  decide

/-- Claim C5 (amended): the three rules are evaluated together per existing
artifact while scanning the collection in order, and the candidate replaces
the first artifact satisfying any rule — whichever index `findIndex` with
the combined predicate returns. -/
theorem first_matching_artifact_replaced
    (now : Nat) (existing : List ChartDataFromBackend) (c : ChartDataFromBackend) (i : Nat)
    (h : jsFindIndex (fun chart => chartMatches c chart) existing = some i) :
    (mergeCharts now existing [c]).charts
        = existing.set i { c with id := some (chartKey c.title c.type), updatedAt := some now } ∧
    (mergeCharts now existing [c]).chartsUpdated = 1 ∧
    (mergeCharts now existing [c]).chartsAdded = 0 := by
  refine ⟨?_, ?_, ?_⟩ <;> simp [mergeCharts, mergeOne, h]

/-- Witness for the amended C5 on the two-artifact collection: `findIndex`
returns 0 (the structural match), and position 0 is replaced. -/
theorem first_matching_artifact_replaced_witness :
    (mergeCharts 3 c5Existing [c5Candidate]).charts
        = c5Existing.set 0 { c5Candidate with
            id := some (chartKey c5Candidate.title c5Candidate.type), updatedAt := some 3 } ∧
    (mergeCharts 3 c5Existing [c5Candidate]).chartsUpdated = 1 ∧
    (mergeCharts 3 c5Existing [c5Candidate]).chartsAdded = 0 :=
  first_matching_artifact_replaced 3 c5Existing c5Candidate 0 (by decide)

unseal Rat.add Rat.mul Rat.inv in
/-- Claim C1 (code-bug evidence): after an authoritative update arrives and
the 5-second timeout fires — its guard `!progressTracker || progressTracker`
is a tautology — the tracker's polling interval and a fallback simulation
interval are both scheduled: two active timers, and the poller's timer was
not cleared when simulation started. -/
theorem coordinator_two_active_timers_after_grace_timeout :
    activeTimerCount (coordRun coordInit c1Trace).1 = 2 ∧
    (coordRun coordInit c1Trace).1.tracker.timer = true ∧
    (coordRun coordInit c1Trace).1.runs.filter (fun r => r.active) ≠ [] := by
  decide

unseal Rat.add Rat.mul Rat.inv in
/-- Claim C4 (code-bug evidence): an authoritative update (percentage 25)
is delivered within the grace window and no poll error ever occurs, yet the
5-second timeout still starts the fallback simulation (one run exists
afterwards), because its guard is a tautology. -/
theorem simulation_starts_despite_authoritative_update :
    progressValues (coordOutputs c4Trace) = [0, 25] ∧
    (coordRun coordInit c4Trace).1.runs.length = 1 := by
  decide

unseal Rat.add Rat.mul Rat.inv in
/-- Claim C2 (counterexample): the session delivers percentages 0, 50, 3 in
that order — the poller forwards an authoritative 50, then the freshly
started simulation emits 3 — so the sequence handed to `onProgress`
decreases and no clamping to the last-emitted value takes place. -/
theorem progress_sequence_regression :
    progressValues (coordOutputs c2Trace) = [0, 50, 3] ∧
    nonDecreasingInt (progressValues (coordOutputs c2Trace)) = false := by
  decide

/-- Claim C2 (amended): the coordinator forwards each poller percentage
verbatim — the `onProgress` value for a success payload is exactly
`Math.round` of the payload percentage, independent of anything previously
emitted; no clamping is applied. -/
theorem poller_percentage_forwarded_unclamped
    (s : CoordState) (prog : ProgressPayload) (h : s.tracker.inFlight ≠ 0) :
    (coordStep s (.respond (.ok { status := "success", progress := some prog }))).2
      = CoordOut.progress (jsRound (prog.percentage.getD 0)) ::
        (if 100 ≤ jsRound (prog.percentage.getD 0) then [CoordOut.complete] else []) := by
  simp only [coordStep, trackerStep, respondResult, if_neg h]
  by_cases hc : 100 ≤ jsRound (prog.percentage.getD 0) <;>
    simp [handleTrackerEmit, hc]

unseal Rat.add Rat.mul Rat.inv in
/-- Witness for the amended C2: a concrete in-flight response carrying 50 is
forwarded as exactly 50. -/
theorem poller_percentage_forwarded_unclamped_witness :
    coordInit.tracker.inFlight ≠ 0 ∧
    (coordStep coordInit
        (.respond (.ok { status := "success", progress := some { percentage := some 50 } }))).2
      = [CoordOut.progress 50] :=
  ⟨by decide,
    (poller_percentage_forwarded_unclamped coordInit { percentage := some 50 }
      (by decide)).trans (by decide)⟩

unseal Rat.add Rat.mul Rat.inv in
/-- Claim C3 (counterexample): the backend completes (percentage 100,
`onComplete` fires, the tracker stops itself), but the 5-second timeout
still starts the simulation, which runs to its own completion: the session
observes two emissions with percentage 100 and two `onComplete` invocations
— the losing source is never stopped. -/
theorem two_terminal_completions :
    completeCount (coordOutputs c3Trace) = 2 ∧
    ((progressValues (coordOutputs c3Trace)).filter (fun p => decide (p = 100))).length = 2 := by
  decide

/-- Claim C3 (amended): each source stops only itself.  In particular a
fallback run whose `phaseIndex` has passed the last phase — the state its
own completing tick establishes — emits nothing on any later tick, so a
single run invokes `onComplete` at most once; but nothing deduplicates
completions across the two sources. -/
theorem fallback_run_silent_after_last_phase
    (s : CoordState) (i : Nat) (rand : ℚ) (run : FallbackRun)
    (h : s.runs[i]? = some run) (hp : ANALYSIS_PHASES.length ≤ run.phaseIndex) :
    (coordStep s (.fallbackTick i rand)).2 = [] := by
  have hnone : ANALYSIS_PHASES[run.phaseIndex]? = none := List.getElem?_eq_none hp
  cases hact : run.active <;> simp [coordStep, h, hnone, hact]

/-- Witness for the amended C3: a completed run (phase index 6) ticks once
more and emits nothing. -/
theorem fallback_run_silent_after_last_phase_witness :
    c3State.runs[0]? = some { active := true, currentProgress := 101, phaseIndex := 6 } ∧
    ANALYSIS_PHASES.length ≤ (6 : Nat) ∧
    (coordStep c3State (.fallbackTick 0 (1/2))).2 = [] :=
  ⟨by decide, by decide,
    fallback_run_silent_after_last_phase c3State 0 (1/2)
      { active := true, currentProgress := 101, phaseIndex := 6 } (by decide) (by decide)⟩

/-- Claim C8 (counterexample): an HTTP-successful response whose body lacks
a success status or a progress object produces no callback at all — neither
`onError` nor `onUpdate`; the response is silently ignored, not treated as
an error. -/
theorem malformed_payload_silently_ignored :
    respondResult "session_1" (.ok { status := "error", progress := none }) = ([], false) ∧
    respondResult "session_1" (.ok { status := "pending", progress := some {} }) = ([], false) ∧
    respondResult "session_1" (.ok { status := "success", progress := none }) = ([], false) := by
  decide

/-- Claim C8 (amended): a response body without a `"success"` status or
without a `progress` object is silently dropped (no `onUpdate`, no
`onError`, no stop); `onError` is invoked exactly when the request itself
throws. -/
theorem poller_error_only_on_request_failure
    (sid : String) (payload : PollPayload)
    (h : payload.status ≠ "success" ∨ payload.progress = none) :
    respondResult sid (.ok payload) = ([], false) ∧
    respondResult sid .err = ([TrackerEmit.error], false) := by
  refine ⟨?_, rfl⟩
  rcases h with h | h
  · have hb : (payload.status == "success") = false := beq_eq_false_iff_ne.mpr h
    simp [respondResult, hb]
  · cases hs : payload.status == "success" <;> simp [respondResult, hs, h]

/-- Witness for the amended C8 at a concrete non-success body. -/
theorem poller_error_only_on_request_failure_witness :
    respondResult "session_1" (.ok { status := "queued", progress := none }) = ([], false) ∧
    respondResult "session_1" .err = ([TrackerEmit.error], false) :=
  poller_error_only_on_request_failure "session_1"
    { status := "queued", progress := none } (Or.inl (by decide))

unseal Rat.add Rat.mul Rat.inv in
/-- Claim C9 (counterexample): `startTracking` issues its initial fetch
synchronously, so after `start(); stop()` one request is in flight; when its
response arrives the update callback still fires — `isTracking` is checked
only before the `await`, not before the emission — so "no callbacks at all"
after an immediate stop is violated. -/
theorem inflight_callback_after_stop :
    (trackerRun freshTracker [TrackerEvent.start, TrackerEvent.stop]).2 = [] ∧
    (trackerStep (trackerRun freshTracker [TrackerEvent.start, TrackerEvent.stop]).1
        (.respond (.ok (successPayload 42)))).2
      = [TrackerEmit.update
          { sessionId := "s", phase := "Unknown", percentage := 42,
            currentTask := "Processing...", estimatedTimeRemaining := 0, elapsedTime := 0,
            totalPhases := 6, currentPhase := 1 }] ∧
    (trackerRun freshTracker c9Trace).2 ≠ [] := by
  decide

/-- Claim C9 (amended): after `stop()` no NEW poll begins — if the tracker
is stopped and no request is in flight, no callback is ever invoked by any
later timer or response event (absent a restart). -/
theorem no_callbacks_when_stopped_quiescent
    (s : TrackerState) (es : List TrackerEvent)
    (hs : stoppedQuiescent s) (hes : TrackerEvent.start ∉ es) :
    (trackerRun s es).2 = [] ∧ stoppedQuiescent (trackerRun s es).1 := by
  induction es generalizing s with
  | nil => exact ⟨rfl, hs⟩
  | cons e es ih =>
    have hne : e ≠ TrackerEvent.start := fun hh => hes (hh ▸ List.mem_cons_self e es)
    have hes' : TrackerEvent.start ∉ es := fun hh => hes (List.mem_cons_of_mem e hh)
    obtain ⟨h1, h2, h3⟩ := hs
    cases e with
    | start => exact absurd rfl hne
    | stop =>
      have := ih { s with isTracking := false, timer := false } ⟨rfl, rfl, h3⟩ hes'
      simpa [trackerRun, trackerStep, stoppedQuiescent] using this
    | tick =>
      have := ih s ⟨h1, h2, h3⟩ hes'
      simpa [trackerRun, trackerStep, h2, stoppedQuiescent] using this
    | respond r =>
      have := ih s ⟨h1, h2, h3⟩ hes'
      simpa [trackerRun, trackerStep, h3, stoppedQuiescent] using this

/-- Witness for the amended C9: a stopped, quiescent tracker sees a tick, an
errored response and another tick — nothing is emitted. -/
theorem no_callbacks_when_stopped_quiescent_witness :
    stoppedQuiescent freshTracker ∧
    (trackerRun freshTracker
      [TrackerEvent.tick, TrackerEvent.respond .err, TrackerEvent.tick]).2 = [] :=
  ⟨⟨rfl, rfl, rfl⟩,
    (no_callbacks_when_stopped_quiescent freshTracker
      [TrackerEvent.tick, TrackerEvent.respond .err, TrackerEvent.tick]
      ⟨rfl, rfl, rfl⟩ (by decide)).1⟩

/-- Claim C6 (counterexample): the candidate shares title and type with the
existing artifact at position 1, yet after the merge that artifact is
completely unchanged — its data is not overwritten and its `updatedAt` is
not refreshed — because the scan had already matched the artifact at
position 0 by the structural-similarity rule. -/
theorem same_title_type_candidate_replaces_different_artifact :
    c5Candidate.title = "Beta" ∧ c5Candidate.type = "bar" ∧
    c5Existing[1]? = some { title := "Beta", type := "bar", labels := ["M", "N"], data := [7, 8] } ∧
    (mergeCharts 3 c5Existing [c5Candidate]).charts[1]?
      = some { title := "Beta", type := "bar", labels := ["M", "N"], data := [7, 8] } := by
  decide
